import Mathlib

/-!
Verification of the Dygraph default axis-scaling strategy
(src/src/dygraph-default-scale.js).

The module is a stateless collection of five pure functions over
JavaScript numbers.  A JavaScript number is modelled by `JSNum`:
either NaN, a signed infinity, or a finite value carried as a real
number (rounding and overflow of IEEE doubles are not modelled; the
properties of interest are stated up to floating-point tolerance,
which exact real arithmetic realises).  The special-value propagation
rules of the arithmetic operations follow IEEE-754 / JavaScript
semantics on the cases that can arise here; the negative zero of
IEEE-754 is identified with zero, which is invisible to every
operation performed by this module.
-/

open scoped Classical

/-- Model of a JavaScript number: NaN, an infinity (`inf true` is
positive infinity, `inf false` negative infinity), or a finite value
modelled as a real number. -/
inductive JSNum where
  | nan : JSNum
  | inf : Bool → JSNum
  | fin : ℝ → JSNum

namespace JSNum

/-- JavaScript addition on numbers (IEEE-754 without rounding). -/
noncomputable def add : JSNum → JSNum → JSNum
  | nan, _ => nan
  | inf _, nan => nan
  | fin _, nan => nan
  | inf b, inf c => if b = c then inf b else nan
  | inf b, fin _ => inf b
  | fin _, inf c => inf c
  | fin x, fin y => fin (x + y)

/-- JavaScript unary negation on numbers. -/
noncomputable def neg : JSNum → JSNum
  | nan => nan
  | inf b => inf !b
  | fin x => fin (-x)

/-- JavaScript subtraction on numbers, `a - b = a + (-b)`. -/
noncomputable def sub (a b : JSNum) : JSNum := a.add b.neg

/-- JavaScript multiplication on numbers (IEEE-754 without rounding):
infinity times zero is NaN, infinity times a nonzero finite value is an
infinity of the product sign. -/
noncomputable def mul : JSNum → JSNum → JSNum
  | nan, _ => nan
  | inf _, nan => nan
  | fin _, nan => nan
  | inf b, inf c => inf (b == c)
  | inf b, fin y => if y = 0 then nan else if 0 < y then inf b else inf !b
  | fin x, inf c => if x = 0 then nan else if 0 < x then inf c else inf !c
  | fin x, fin y => fin (x * y)

/-- JavaScript division on numbers (IEEE-754 without rounding):
infinity over infinity and zero over zero are NaN, a nonzero finite
value over zero is a signed infinity, a finite value over an infinity
is zero. -/
noncomputable def div : JSNum → JSNum → JSNum
  | nan, _ => nan
  | inf _, nan => nan
  | fin _, nan => nan
  | inf _, inf _ => nan
  | inf b, fin y => if 0 ≤ y then inf b else inf !b
  | fin _, inf _ => fin 0
  | fin x, fin y =>
      if y = 0 then (if x = 0 then nan else if 0 < x then inf true else inf false)
      else fin (x / y)

/-- Model of the global JavaScript predicate `isFinite`: false on NaN
and on the infinities. -/
def isFinite : JSNum → Bool
  | fin _ => true
  | _ => false

/-- Model of the global JavaScript predicate `isNaN`. -/
def isNaN : JSNum → Bool
  | nan => true
  | _ => false

/-- Modelled from the spec: the numeric-utilities collaborator
`utils.log10` (dygraph-utils is not under src/).  Base-10 logarithm,
domain-safe: the logarithm of zero is negative infinity and the
logarithm of a negative number is NaN, rather than an exception. -/
noncomputable def log10 : JSNum → JSNum
  | nan => nan
  | inf b => if b then inf true else nan
  | fin x => if x < 0 then nan else if x = 0 then inf false else fin (Real.log x / Real.log 10)

/-- Model of `Math.pow(10, e)`: ten to a NaN exponent is NaN, to
positive infinity is positive infinity, to negative infinity is zero,
and to a finite exponent is the real power. -/
noncomputable def pow10 : JSNum → JSNum
  | nan => nan
  | inf b => if b then inf true else fin 0
  | fin x => fin ((10 : ℝ) ^ x)

end JSNum

/-- Model of the graph collaborator: the only capability this module
uses is `graph.attributes_.getForAxis("logscale", axis)`, a read-only
per-axis boolean query, modelled as the field `logscale`. -/
structure Graph where
  logscale : Nat → Bool

/-- Modelled from the spec: the shared numeric utility
`utils.logRangeFraction(r0, r1, frac)` (dygraph-utils is not under
src/): the data value at logarithmic-interpolation fraction `frac`
between the two bounds, `10 ^ (log10 r0 + frac * (log10 r1 - log10 r0))`. -/
noncomputable def logRangeFraction (r0 r1 frac : JSNum) : JSNum :=
  JSNum.pow10 (r0.log10.add (frac.mul (r1.log10.sub r0.log10)))

/-- `DygraphDefaultScale.scaledValueToDataPoint(graph, axis, sv)`:
identity on a linear axis, `Math.pow(10, sv)` on a logarithmic axis. -/
noncomputable def scaledValueToDataPoint (graph : Graph) (axis : Nat) (sv : JSNum) : JSNum :=
  if !(graph.logscale axis) then sv
  else JSNum.pow10 sv

/-- `DygraphDefaultScale.dataPointToScaledValue(graph, axis, v)`:
identity on a linear axis, `utils.log10(v)` on a logarithmic axis. -/
noncomputable def dataPointToScaledValue (graph : Graph) (axis : Nat) (v : JSNum) : JSNum :=
  if !(graph.logscale axis) then v
  else JSNum.log10 v

/-- `DygraphDefaultScale.relativeScaledValueToDataPoint(graph, axis,
rsv, range_start, range_end, invert)`. -/
noncomputable def relativeScaledValueToDataPoint (graph : Graph) (axis : Nat)
    (rsv range_start range_end : JSNum) (invert : Bool) : JSNum :=
  let range_width := range_end.sub range_start
  if !(graph.logscale axis) then
    if invert then range_end.sub (rsv.mul range_width)
    else range_start.add (rsv.mul range_width)
  else
    if invert then logRangeFraction range_end range_start rsv
    else logRangeFraction range_start range_end rsv

/-- `DygraphDefaultScale.dataPointToRelativeScaledValue(graph, axis,
value, range_start, range_end, invert)`.  The JavaScript source seeds a
scratch variable before overwriting it on every path; only the final
value is modelled. -/
noncomputable def dataPointToRelativeScaledValue (graph : Graph) (axis : Nat)
    (value range_start range_end : JSNum) (invert : Bool) : JSNum :=
  let scaled_value :=
    if !(graph.logscale axis) then
      let range_width := range_end.sub range_start
      let range_width := if range_width = JSNum.fin 0 then JSNum.fin 1 else range_width
      (value.sub range_start).div range_width
    else
      let log_range_start := range_start.log10
      let log_range_end := range_end.log10
      let log_range_width := log_range_end.sub log_range_start
      let log_range_width :=
        if log_range_width = JSNum.fin 0 then JSNum.fin 1 else log_range_width
      let s := (value.log10.sub log_range_start).div log_range_width
      if s.isFinite then s else JSNum.nan
  if invert then (JSNum.fin 1).sub scaled_value else scaled_value

/-- `DygraphDefaultScale.rangeError(graph, axis, range_start,
range_end)`: true when the range cannot be represented by this scaler. -/
noncomputable def rangeError (graph : Graph) (axis : Nat)
    (range_start range_end : JSNum) : Bool :=
  if !(graph.logscale axis) then false
  else
    let log_range_start := range_start.log10
    let log_range_end := range_end.log10
    let log_range_width := log_range_end.sub log_range_start
    let log_range_width :=
      if log_range_width = JSNum.fin 0 then JSNum.fin 1 else log_range_width
    let log_scale := (JSNum.fin 1).div log_range_width
    if !log_scale.isFinite || log_scale.isNaN ||
        !log_range_width.isFinite || log_range_width.isNaN then true
    else false

namespace JSNum

@[simp] lemma add_fin_fin (x y : ℝ) : (fin x).add (fin y) = fin (x + y) := rfl

@[simp] lemma neg_fin (x : ℝ) : (fin x).neg = fin (-x) := rfl

@[simp] lemma sub_fin_fin (x y : ℝ) : (fin x).sub (fin y) = fin (x - y) := by
  simp [sub, add, sub_eq_add_neg]

@[simp] lemma mul_fin_fin (x y : ℝ) : (fin x).mul (fin y) = fin (x * y) := rfl

lemma div_fin_fin (x y : ℝ) (hy : y ≠ 0) : (fin x).div (fin y) = fin (x / y) := by
  simp [div, hy]

@[simp] lemma pow10_fin (x : ℝ) : pow10 (fin x) = fin ((10 : ℝ) ^ x) := rfl

lemma log10_fin_pos (x : ℝ) (hx : 0 < x) :
    log10 (fin x) = fin (Real.log x / Real.log 10) := by
  simp [log10, not_lt.mpr hx.le, hx.ne.symm, asymm hx]

@[simp] lemma isFinite_fin (x : ℝ) : (fin x).isFinite = true := rfl

@[simp] lemma isNaN_fin (x : ℝ) : (fin x).isNaN = false := rfl

end JSNum

lemma log_ten_pos : 0 < Real.log 10 := Real.log_pos (by norm_num)

/-- Ten to the base-10 logarithm of a positive real is that real. -/
lemma ten_rpow_log10 (v : ℝ) (hv : 0 < v) :
    (10 : ℝ) ^ (Real.log v / Real.log 10) = v := by
  rw [Real.rpow_def_of_pos (by norm_num), mul_comm,
    div_mul_cancel₀ _ log_ten_pos.ne.symm, Real.exp_log hv]

/-- The base-10 logarithm of ten to a real power is that power. -/
lemma log10_ten_rpow (e : ℝ) : Real.log ((10 : ℝ) ^ e) / Real.log 10 = e := by
  rw [Real.log_rpow (by norm_num), mul_div_cancel_right₀ _ log_ten_pos.ne.symm]

/-- Distinct positive reals have distinct natural logarithms. -/
lemma log_sub_ne_of_ne (s e : ℝ) (hs : 0 < s) (he : 0 < e) (hne : s ≠ e) :
    Real.log e - Real.log s ≠ 0 := by
  intro h
  apply hne
  have hlog : Real.log s = Real.log e := by linarith
  calc s = Real.exp (Real.log s) := (Real.exp_log hs).symm
    _ = Real.exp (Real.log e) := by rw [hlog]
    _ = e := Real.exp_log he

/-- Distinct positive reals have distinct base-10 logarithms. -/
lemma log10_ne_of_ne (s e : ℝ) (hs : 0 < s) (he : 0 < e) (hne : s ≠ e) :
    Real.log e / Real.log 10 - Real.log s / Real.log 10 ≠ 0 := by
  intro h
  apply hne
  have hlog : Real.log s = Real.log e := by
    field_simp at h
    linarith
  calc s = Real.exp (Real.log s) := (Real.exp_log hs).symm
    _ = Real.exp (Real.log e) := by rw [hlog]
    _ = e := Real.exp_log he

/-- Evaluation of `relativeScaledValueToDataPoint` on a linear axis at
finite arguments. -/
lemma r2d_linear (graph : Graph) (axis : Nat) (h : graph.logscale axis = false)
    (rsv s e : ℝ) (invert : Bool) :
    relativeScaledValueToDataPoint graph axis (.fin rsv) (.fin s) (.fin e) invert
      = .fin (if invert then e - rsv * (e - s) else s + rsv * (e - s)) := by
  cases invert <;> simp [relativeScaledValueToDataPoint, h]

/-- Evaluation of `relativeScaledValueToDataPoint` on a logarithmic
axis at finite positive bounds. -/
lemma r2d_log (graph : Graph) (axis : Nat) (h : graph.logscale axis = true)
    (rsv s e : ℝ) (hs : 0 < s) (he : 0 < e) (invert : Bool) :
    relativeScaledValueToDataPoint graph axis (.fin rsv) (.fin s) (.fin e) invert
      = .fin ((10 : ℝ) ^ (if invert
          then Real.log e / Real.log 10
            + rsv * (Real.log s / Real.log 10 - Real.log e / Real.log 10)
          else Real.log s / Real.log 10
            + rsv * (Real.log e / Real.log 10 - Real.log s / Real.log 10))) := by
  cases invert <;>
    simp [relativeScaledValueToDataPoint, h, logRangeFraction,
      JSNum.log10_fin_pos s hs, JSNum.log10_fin_pos e he]

/-- Evaluation of `dataPointToRelativeScaledValue` on a linear axis at
finite arguments with a nonzero range width. -/
lemma d2r_linear (graph : Graph) (axis : Nat) (h : graph.logscale axis = false)
    (v s e : ℝ) (hw : e - s ≠ 0) (invert : Bool) :
    dataPointToRelativeScaledValue graph axis (.fin v) (.fin s) (.fin e) invert
      = .fin (if invert then 1 - (v - s) / (e - s) else (v - s) / (e - s)) := by
  have hne : ¬(JSNum.fin (e - s) = JSNum.fin 0) := by simpa using hw
  cases invert <;>
    simp [dataPointToRelativeScaledValue, h, hne, JSNum.div_fin_fin _ _ hw]

/-- Evaluation of `dataPointToRelativeScaledValue` on a logarithmic
axis at finite positive arguments with distinct bounds. -/
lemma d2r_log (graph : Graph) (axis : Nat) (h : graph.logscale axis = true)
    (v s e : ℝ) (hv : 0 < v) (hs : 0 < s) (he : 0 < e) (hne : s ≠ e) (invert : Bool) :
    dataPointToRelativeScaledValue graph axis (.fin v) (.fin s) (.fin e) invert
      = .fin (if invert
          then 1 - (Real.log v / Real.log 10 - Real.log s / Real.log 10)
            / (Real.log e / Real.log 10 - Real.log s / Real.log 10)
          else (Real.log v / Real.log 10 - Real.log s / Real.log 10)
            / (Real.log e / Real.log 10 - Real.log s / Real.log 10)) := by
  have hw := log10_ne_of_ne s e hs he hne
  have hne' : ¬(JSNum.fin (Real.log e / Real.log 10 - Real.log s / Real.log 10)
      = JSNum.fin 0) := by simpa using hw
  cases invert <;>
    simp [dataPointToRelativeScaledValue, h, JSNum.log10_fin_pos s hs,
      JSNum.log10_fin_pos e he, JSNum.log10_fin_pos v hv, hne',
      JSNum.div_fin_fin _ _ hw]

namespace JSNum

@[simp] lemma nan_sub (a : JSNum) : nan.sub a = nan := by cases a <;> rfl

@[simp] lemma sub_nan (a : JSNum) : a.sub nan = nan := by cases a <;> rfl

@[simp] lemma nan_div (a : JSNum) : nan.div a = nan := by cases a <;> rfl

@[simp] lemma div_nan (a : JSNum) : a.div nan = nan := by cases a <;> rfl

@[simp] lemma isFinite_nan : (nan).isFinite = false := rfl

@[simp] lemma isFinite_inf (b : Bool) : (inf b).isFinite = false := rfl

@[simp] lemma isNaN_nan : (nan).isNaN = true := rfl

/-- Dividing an infinity by anything never yields a finite value. -/
lemma isFinite_inf_div (b : Bool) (w : JSNum) : ((inf b).div w).isFinite = false := by
  cases w with
  | nan => rfl
  | inf c => rfl
  | fin y =>
      simp only [div]
      split <;> rfl

end JSNum

/-- C7: on a linear axis both absolute transforms,
`dataPointToScaledValue` and `scaledValueToDataPoint`, are the identity
on every finite value. -/
theorem linear_absolute_transforms_identity (graph : Graph) (axis : Nat)
    (h : graph.logscale axis = false) (v : ℝ) :
    dataPointToScaledValue graph axis (.fin v) = .fin v ∧
    scaledValueToDataPoint graph axis (.fin v) = .fin v := by
  constructor <;> simp [dataPointToScaledValue, scaledValueToDataPoint, h]

/-- Closed instance of `linear_absolute_transforms_identity` at axis 0
and value 7. -/
theorem linear_absolute_transforms_identity_witness :
    dataPointToScaledValue ⟨fun _ => false⟩ 0 (.fin 7) = .fin 7 ∧
    scaledValueToDataPoint ⟨fun _ => false⟩ 0 (.fin 7) = .fin 7 :=
  linear_absolute_transforms_identity ⟨fun _ => false⟩ 0 rfl 7

/-- C2: on a linear axis `relativeScaledValueToDataPoint` returns
`range_start + rsv * (range_end - range_start)` when not inverted and
`range_end - rsv * (range_end - range_start)` when inverted. -/
theorem linear_relative_to_data_formula (graph : Graph) (axis : Nat)
    (h : graph.logscale axis = false) (rsv s e : ℝ) :
    relativeScaledValueToDataPoint graph axis (.fin rsv) (.fin s) (.fin e) false
      = .fin (s + rsv * (e - s)) ∧
    relativeScaledValueToDataPoint graph axis (.fin rsv) (.fin s) (.fin e) true
      = .fin (e - rsv * (e - s)) := by
  constructor <;> rw [r2d_linear graph axis h rsv s e] <;> simp

/-- Closed instance of `linear_relative_to_data_formula`: with bounds 0
and 100 and rsv 0.25 the result is 25 non-inverted and 75 inverted. -/
theorem linear_relative_to_data_formula_witness :
    relativeScaledValueToDataPoint ⟨fun _ => false⟩ 0
      (.fin 0.25) (.fin 0) (.fin 100) false = .fin 25 ∧
    relativeScaledValueToDataPoint ⟨fun _ => false⟩ 0
      (.fin 0.25) (.fin 0) (.fin 100) true = .fin 75 := by
  have h := linear_relative_to_data_formula ⟨fun _ => false⟩ 0 rfl 0.25 0 100
  constructor
  · rw [h.1]
    norm_num
  · rw [h.2]
    norm_num

/-- C9: on a logarithmic axis `scaledValueToDataPoint` of a finite
value is finite and strictly positive. -/
theorem log_scaled_to_data_positive (graph : Graph) (axis : Nat)
    (h : graph.logscale axis = true) (sv : ℝ) :
    (scaledValueToDataPoint graph axis (.fin sv)).isFinite = true ∧
    ∃ r : ℝ, scaledValueToDataPoint graph axis (.fin sv) = .fin r ∧ 0 < r := by
  have hev : scaledValueToDataPoint graph axis (.fin sv) = .fin ((10 : ℝ) ^ sv) := by
    simp [scaledValueToDataPoint, h]
  exact ⟨by rw [hev]; rfl,
    ⟨(10 : ℝ) ^ sv, hev, Real.rpow_pos_of_pos (by norm_num) sv⟩⟩

/-- Closed instance of `log_scaled_to_data_positive` at scaled value 0. -/
theorem log_scaled_to_data_positive_witness :
    (scaledValueToDataPoint ⟨fun _ => true⟩ 0 (.fin 0)).isFinite = true ∧
    ∃ r : ℝ, scaledValueToDataPoint ⟨fun _ => true⟩ 0 (.fin 0) = .fin r ∧ 0 < r :=
  log_scaled_to_data_positive ⟨fun _ => true⟩ 0 rfl 0

/-- C10: on a logarithmic axis `rangeError` returns false on an exactly
zero-width strictly positive range: the zero log-width is substituted
with one before the finiteness tests. -/
theorem rangeError_log_zero_width_false (graph : Graph) (axis : Nat)
    (h : graph.logscale axis = true) (b : ℝ) (hb : 0 < b) :
    rangeError graph axis (.fin b) (.fin b) = false := by
  simp [rangeError, h, JSNum.log10_fin_pos b hb,
    JSNum.div_fin_fin 1 1 one_ne_zero]

/-- Closed instance of `rangeError_log_zero_width_false` at bound 5. -/
theorem rangeError_log_zero_width_false_witness :
    rangeError ⟨fun _ => true⟩ 0 (.fin 5) (.fin 5) = false :=
  rangeError_log_zero_width_false ⟨fun _ => true⟩ 0 rfl 5 (by norm_num)

/-- C6: `dataPointToRelativeScaledValue` guards its divisions against a
zero-width range by substituting width one, so an equal-bounds range
yields a finite value, not NaN: `v - range_start` on a linear axis and
`log10 v - log10 range_start` on a logarithmic axis. -/
theorem d2r_zero_width_guard (graph : Graph) (axis : Nat) (v b : ℝ) :
    (graph.logscale axis = false →
      dataPointToRelativeScaledValue graph axis (.fin v) (.fin b) (.fin b) false
        = .fin (v - b)) ∧
    (graph.logscale axis = true → 0 < v → 0 < b →
      dataPointToRelativeScaledValue graph axis (.fin v) (.fin b) (.fin b) false
        = .fin (Real.log v / Real.log 10 - Real.log b / Real.log 10)) := by
  constructor
  · intro h
    simp [dataPointToRelativeScaledValue, h, JSNum.div_fin_fin _ 1 one_ne_zero]
  · intro h hv hb
    simp [dataPointToRelativeScaledValue, h, JSNum.log10_fin_pos b hb,
      JSNum.log10_fin_pos v hv, JSNum.div_fin_fin _ 1 one_ne_zero]

/-- Closed instance of `d2r_zero_width_guard`: on a linear axis,
`dataPointToRelativeScaledValue(5, 5, 5, false)` returns 0, not NaN. -/
theorem d2r_zero_width_guard_witness :
    dataPointToRelativeScaledValue ⟨fun _ => false⟩ 0
      (.fin 5) (.fin 5) (.fin 5) false = .fin 0 := by
  have h := (d2r_zero_width_guard ⟨fun _ => false⟩ 0 5 5).1 rfl
  rw [h]
  norm_num

/-- C8: on a logarithmic axis `dataPointToScaledValue` is the base-10
logarithm, `scaledValueToDataPoint` is ten to the power, and the round
trip is the identity on every strictly positive value. -/
theorem log_absolute_transforms_round_trip (graph : Graph) (axis : Nat)
    (h : graph.logscale axis = true) :
    (∀ v : ℝ, 0 < v →
      dataPointToScaledValue graph axis (.fin v)
        = .fin (Real.log v / Real.log 10)) ∧
    (∀ sv : ℝ, scaledValueToDataPoint graph axis (.fin sv)
        = .fin ((10 : ℝ) ^ sv)) ∧
    (∀ v : ℝ, 0 < v →
      scaledValueToDataPoint graph axis (dataPointToScaledValue graph axis (.fin v))
        = .fin v) := by
  have hd : ∀ v : ℝ, 0 < v →
      dataPointToScaledValue graph axis (.fin v)
        = .fin (Real.log v / Real.log 10) := by
    intro v hv
    simp [dataPointToScaledValue, h, JSNum.log10_fin_pos v hv]
  have hum : ∀ sv : ℝ, scaledValueToDataPoint graph axis (.fin sv)
      = .fin ((10 : ℝ) ^ sv) := by
    intro sv
    simp [scaledValueToDataPoint, h]
  refine ⟨hd, hum, fun v hv => ?_⟩
  rw [hd v hv, hum, ten_rpow_log10 v hv]

/-- Closed instance of `log_absolute_transforms_round_trip`: the round
trip at value 100 returns 100. -/
theorem log_absolute_transforms_round_trip_witness :
    scaledValueToDataPoint ⟨fun _ => true⟩ 0
      (dataPointToScaledValue ⟨fun _ => true⟩ 0 (.fin 100)) = .fin 100 :=
  (log_absolute_transforms_round_trip ⟨fun _ => true⟩ 0 rfl).2.2 100 (by norm_num)

/-- C3: on a logarithmic axis `relativeScaledValueToDataPoint`
delegates to `logRangeFraction`, with the bound arguments swapped when
inverted and the fraction passed through unchanged; at bounds 1 and 100
with fraction one half, non-inverted, it returns 10. -/
theorem log_relative_to_data_delegates (graph : Graph) (axis : Nat)
    (h : graph.logscale axis = true) (rsv s e : ℝ) :
    (relativeScaledValueToDataPoint graph axis (.fin rsv) (.fin s) (.fin e) false
       = logRangeFraction (.fin s) (.fin e) (.fin rsv)) ∧
    (relativeScaledValueToDataPoint graph axis (.fin rsv) (.fin s) (.fin e) true
       = logRangeFraction (.fin e) (.fin s) (.fin rsv)) ∧
    relativeScaledValueToDataPoint graph axis (.fin (1/2)) (.fin 1) (.fin 100) false
       = .fin 10 := by
  refine ⟨by simp [relativeScaledValueToDataPoint, h],
    by simp [relativeScaledValueToDataPoint, h], ?_⟩
  rw [r2d_log graph axis h (1/2) 1 100 one_pos (by norm_num)]
  have h100 : Real.log 100 = 2 * Real.log 10 := by
    rw [show (100 : ℝ) = 10 ^ (2 : ℕ) by norm_num, Real.log_pow]
    norm_num
  have hexp : Real.log 1 / Real.log 10
      + 1 / 2 * (Real.log 100 / Real.log 10 - Real.log 1 / Real.log 10) = 1 := by
    rw [Real.log_one, h100, mul_div_assoc, div_self log_ten_pos.ne.symm]
    norm_num
  simp only [if_false, Bool.false_eq_true, hexp]
  rw [Real.rpow_one]

/-- Closed instance of `log_relative_to_data_delegates`: the concrete
logarithmic midpoint case. -/
theorem log_relative_to_data_delegates_witness :
    relativeScaledValueToDataPoint ⟨fun _ => true⟩ 0
      (.fin (1/2)) (.fin 1) (.fin 100) false = .fin 10 :=
  (log_relative_to_data_delegates ⟨fun _ => true⟩ 0 rfl (1/2) 1 100).2.2

/-- C4: on a logarithmic axis, a zero or negative data value maps to
NaN under `dataPointToRelativeScaledValue` — never to an infinity —
for every finite range and both inversion flags: the non-finite
quotient is normalized to NaN before the inversion flip. -/
theorem d2r_log_nonpositive_nan (graph : Graph) (axis : Nat)
    (h : graph.logscale axis = true) (v s e : ℝ) (hv : v ≤ 0) (invert : Bool) :
    dataPointToRelativeScaledValue graph axis (.fin v) (.fin s) (.fin e) invert
      = JSNum.nan := by
  have hnum : (JSNum.fin v).log10 = JSNum.nan
      ∨ (JSNum.fin v).log10 = JSNum.inf false := by
    rcases lt_or_eq_of_le hv with hlt | heq
    · left
      simp [JSNum.log10, hlt]
    · right
      simp [JSNum.log10, ← heq]
  have hsub : ((JSNum.fin v).log10.sub (JSNum.fin s).log10) = JSNum.nan
      ∨ ((JSNum.fin v).log10.sub (JSNum.fin s).log10) = JSNum.inf false := by
    rcases hnum with h1 | h1 <;> rw [h1]
    · left
      cases (JSNum.fin s).log10 <;> rfl
    · cases h2 : (JSNum.fin s).log10 with
      | nan => left; rfl
      | inf b => cases b
                 · left; rfl
                 · right; rfl
      | fin l => right; rfl
  have hs0 : ∀ w : JSNum,
      (((JSNum.fin v).log10.sub (JSNum.fin s).log10).div w).isFinite = false := by
    intro w
    rcases hsub with h1 | h1 <;> rw [h1]
    · simp
    · exact JSNum.isFinite_inf_div false w
  have hfin := hs0 (if (JSNum.fin e).log10.sub (JSNum.fin s).log10 = JSNum.fin 0
      then JSNum.fin 1 else (JSNum.fin e).log10.sub (JSNum.fin s).log10)
  cases invert <;> simp [dataPointToRelativeScaledValue, h, hfin]

/-- Closed instance of `d2r_log_nonpositive_nan` at value 0 over the
range 1 to 100. -/
theorem d2r_log_nonpositive_nan_witness :
    dataPointToRelativeScaledValue ⟨fun _ => true⟩ 0
      (.fin 0) (.fin 1) (.fin 100) false = JSNum.nan :=
  d2r_log_nonpositive_nan ⟨fun _ => true⟩ 0 rfl 0 1 100 le_rfl false

/-- C5: `rangeError` is false on every linear axis whatever the bounds;
on a logarithmic axis it is false whenever both bounds are strictly
positive, true at the bounds (-1, 10), and false at the bounds
(1, 1000). -/
theorem rangeError_characterisation (graph : Graph) (axis : Nat) (s e : ℝ) :
    (graph.logscale axis = false →
      rangeError graph axis (.fin s) (.fin e) = false) ∧
    (graph.logscale axis = true →
      (0 < s → 0 < e → rangeError graph axis (.fin s) (.fin e) = false) ∧
      rangeError graph axis (.fin (-1)) (.fin 10) = true ∧
      rangeError graph axis (.fin 1) (.fin 1000) = false) := by
  refine ⟨fun h => by simp [rangeError, h], fun h => ⟨fun hs he => ?_, ?_, ?_⟩⟩
  · by_cases hw : Real.log e / Real.log 10 - Real.log s / Real.log 10 = 0
    · simp [rangeError, h, JSNum.log10_fin_pos s hs, JSNum.log10_fin_pos e he,
        hw, JSNum.div_fin_fin 1 1 one_ne_zero]
    · have hne : ¬(JSNum.fin (Real.log e / Real.log 10 - Real.log s / Real.log 10)
          = JSNum.fin 0) := by simpa using hw
      simp [rangeError, h, JSNum.log10_fin_pos s hs, JSNum.log10_fin_pos e he,
        hne, JSNum.div_fin_fin 1 _ hw]
  · have hneg : JSNum.log10 (JSNum.fin (-1)) = JSNum.nan := by
      simp [JSNum.log10]
    simp [rangeError, h, hneg, JSNum.log10_fin_pos 10 (by norm_num)]
  · have hw : Real.log 1000 / Real.log 10 ≠ 0 :=
      (div_pos (Real.log_pos (by norm_num)) log_ten_pos).ne.symm
    have h1 : JSNum.log10 (JSNum.fin 1) = JSNum.fin 0 := by
      rw [JSNum.log10_fin_pos 1 one_pos, Real.log_one, zero_div]
    have h2 : JSNum.log10 (JSNum.fin 1000)
        = JSNum.fin (Real.log 1000 / Real.log 10) :=
      JSNum.log10_fin_pos 1000 (by norm_num)
    have hne : (JSNum.fin (Real.log 1000 / Real.log 10) : JSNum) ≠ JSNum.fin 0 := by
      simpa using hw
    have hif : (if (JSNum.fin (Real.log 1000 / Real.log 10) : JSNum) = JSNum.fin 0
        then (JSNum.fin 1 : JSNum) else JSNum.fin (Real.log 1000 / Real.log 10))
        = JSNum.fin (Real.log 1000 / Real.log 10) := if_neg hne
    have hdiv := JSNum.div_fin_fin 1 _ hw
    simp only [rangeError, h, Bool.not_true, Bool.false_eq_true, if_false,
      h1, h2, JSNum.sub_fin_fin, sub_zero, hif, hdiv]
    rfl

/-- Closed instances of `rangeError_characterisation`: the bounds
(-1, 10) are fine on a linear axis and an error on a logarithmic axis,
and the bounds (1, 1000) are fine on a logarithmic axis. -/
theorem rangeError_characterisation_witness :
    rangeError ⟨fun _ => false⟩ 0 (.fin (-1)) (.fin 10) = false ∧
    rangeError ⟨fun _ => true⟩ 0 (.fin 1) (.fin 1000) = false ∧
    rangeError ⟨fun _ => true⟩ 0 (.fin (-1)) (.fin 10) = true :=
  ⟨(rangeError_characterisation ⟨fun _ => false⟩ 0 (-1) 10).1 rfl,
   ((rangeError_characterisation ⟨fun _ => true⟩ 0 1 1000).2 rfl).1
     (by norm_num) (by norm_num),
   ((rangeError_characterisation ⟨fun _ => true⟩ 0 1 1000).2 rfl).2.1⟩

/-- C1: for every axis, every valid positive range (strictly positive,
distinct bounds), every rsv, and both inversion flags, composing the
two range-bound functions is the identity:
`dataPointToRelativeScaledValue` applied to the result of
`relativeScaledValueToDataPoint` returns the original rsv. -/
theorem relative_round_trip (graph : Graph) (axis : Nat) (rsv s e : ℝ)
    (hs : 0 < s) (he : 0 < e) (hne : s ≠ e) (invert : Bool) :
    dataPointToRelativeScaledValue graph axis
      (relativeScaledValueToDataPoint graph axis (.fin rsv) (.fin s) (.fin e) invert)
      (.fin s) (.fin e) invert = .fin rsv := by
  cases hlog : graph.logscale axis with
  | false =>
    have hw : e - s ≠ 0 := sub_ne_zero.mpr (Ne.symm hne)
    cases invert
    · rw [r2d_linear graph axis hlog rsv s e false,
        d2r_linear graph axis hlog _ s e hw false]
      simp only [Bool.false_eq_true, if_false, JSNum.fin.injEq]
      field_simp
    · rw [r2d_linear graph axis hlog rsv s e true,
        d2r_linear graph axis hlog _ s e hw true]
      simp only [if_true, JSNum.fin.injEq]
      field_simp
  | true =>
    have hlw := log_sub_ne_of_ne s e hs he hne
    cases invert
    · rw [r2d_log graph axis hlog rsv s e hs he false,
        d2r_log graph axis hlog _ s e
          (Real.rpow_pos_of_pos (by norm_num) _) hs he hne false]
      simp only [Bool.false_eq_true, if_false, log10_ten_rpow, JSNum.fin.injEq]
      field_simp
    · rw [r2d_log graph axis hlog rsv s e hs he true,
        d2r_log graph axis hlog _ s e
          (Real.rpow_pos_of_pos (by norm_num) _) hs he hne true]
      simp only [if_true, log10_ten_rpow, JSNum.fin.injEq]
      field_simp
      ring

/-- Closed instance of `relative_round_trip`: the inverted logarithmic
round trip over the range 1 to 100 at rsv one half. -/
theorem relative_round_trip_witness :
    dataPointToRelativeScaledValue ⟨fun _ => true⟩ 0
      (relativeScaledValueToDataPoint ⟨fun _ => true⟩ 0
        (.fin (1/2)) (.fin 1) (.fin 100) true)
      (.fin 1) (.fin 100) true = .fin (1/2) :=
  relative_round_trip ⟨fun _ => true⟩ 0 (1/2) 1 100
    one_pos (by norm_num) (by norm_num) true
